import Mathlib

/-!
Verification of the yes-watch astronomy engine.

The definitions below are a shallow embedding of `src/c/yes_astro.c` together
with the result types of `src/c/yes_types.h`.  Machine integers are modelled
as `Int`; every place where the C code narrows to `int32_t` (a cast or an
`int`-width multiplication) goes through `toInt32`, C integer division is
`Int.tdiv` (truncation toward zero) and C `%` is `Int.tmod`.  The Pebble SDK
primitives `sin_lookup` / `cos_lookup` are not part of this repository, so
they are kept abstract as a `TrigTable` parameter; the SDK constants
`TRIG_MAX_ANGLE = 0x10000` and `TRIG_MAX_SCALE = 0xffff` are fixed numerals.
The C entry point `calc_sunrise_sunset_local` receives latitude/longitude as
`double` and immediately rounds them to fixed-point 1e-6 degrees; floating
point is outside this integer model, so the embedded entry point takes the
already-converted `lat_e6` / `lon_e6` integers.  The platform clock
(`time(NULL)`) and calendar decomposition (`gmtime`) used by the two
local-time helpers are likewise passed in as explicit parameters.
-/

namespace YesAstro

set_option maxRecDepth 100000

/-- Pebble SDK constant: one full turn in native angle units (0x10000). -/
def TRIG_MAX_ANGLE : Int := 65536

/-- Pebble SDK constant: the scale of the table trig output, 0xffff (named with SCALE here; the SDK calls this ratio constant TRIG MAX RATIO). -/
def TRIG_MAX_SCALE : Int := 65535

/-- C cast to `int32_t`: two's-complement wrap into `[-2^31, 2^31)`. -/
def toInt32 (v : Int) : Int := (v + 2147483648) % 4294967296 - 2147483648

/-- The Pebble table-trig primitive (`sin_lookup` / `cos_lookup`), abstract:
the engine only relies on it being some fixed integer-valued function. -/
structure TrigTable where
  sinLookup : Int → Int
  cosLookup : Int → Int

/-- The documented range of the table primitive: outputs are scaled by
`TRIG_MAX_SCALE`, hence lie in `[-TRIG_MAX_SCALE, TRIG_MAX_SCALE]`. -/
def TrigTable.InRange (T : TrigTable) : Prop :=
  ∀ a, |T.sinLookup a| ≤ TRIG_MAX_SCALE ∧ |T.cosLookup a| ≤ TRIG_MAX_SCALE

/-- Embeds `deg_e6_to_trig` from yes_astro.c: degrees (1e6 scale) to native angle. -/
def deg_e6_to_trig (deg_e6 : Int) : Int :=
  toInt32 ((TRIG_MAX_ANGLE * deg_e6).tdiv (360 * 1000000))

/-- Embeds `rad_e6_to_trig` from yes_astro.c: radians (1e6 scale) to native angle. -/
def rad_e6_to_trig (rad_e6 : Int) : Int :=
  toInt32 ((TRIG_MAX_ANGLE * rad_e6).tdiv 6283185)

/-- The `days_before_month` table of `day_of_year` (index = month 1-12);
out-of-range months read 0 here (the C array read would be undefined). -/
def days_before_month (m : Int) : Int :=
  if m = 1 then 0 else if m = 2 then 31 else if m = 3 then 59
  else if m = 4 then 90 else if m = 5 then 120 else if m = 6 then 151
  else if m = 7 then 181 else if m = 8 then 212 else if m = 9 then 243
  else if m = 10 then 273 else if m = 11 then 304 else if m = 12 then 334
  else 0

/-- Embeds `day_of_year` from yes_astro.c (1-based ordinal, Gregorian leap rule). -/
def day_of_year (year month_1_12 day_1_31 : Int) : Int :=
  let doy := days_before_month month_1_12 + day_1_31
  let leap := (Int.tmod year 4 = 0 ∧ Int.tmod year 100 ≠ 0) ∨ Int.tmod year 400 = 0
  if leap ∧ month_1_12 > 2 then doy + 1 else doy

/-- Embeds `clamp_i32` from yes_astro.c. -/
def clamp_i32 (v lo hi : Int) : Int :=
  if v < lo then lo else if v > hi then hi else v

/-- The equation-of-time computation of `sun_sin_alt_scaled`, as a function of
the four table-trig samples it consumes (sin/cos of gamma and of 2*gamma):
sequential accumulation of the bracket in 1e6 scale, each trig term divided by
`TRIG_MAX_SCALE`, then `13750800 * bracket / 1e6` narrowed to `int32_t`. -/
def eqtime_sec (sin1 cos1 sin2 cos2 : Int) : Int :=
  let s0 : Int := 75
  let s1 := s0 + (1868 * cos1).tdiv TRIG_MAX_SCALE
  let s2 := s1 + ((-32077) * sin1).tdiv TRIG_MAX_SCALE
  let s3 := s2 + ((-14615) * cos2).tdiv TRIG_MAX_SCALE
  let s4 := s3 + ((-40849) * sin2).tdiv TRIG_MAX_SCALE
  toInt32 ((13750800 * s4).tdiv 1000000)

/-- The declination computation of `sun_sin_alt_scaled` (ppm radians), as a
function of the six table-trig samples it consumes. -/
def decl_e6_of (sin1 cos1 sin2 cos2 sin3 cos3 : Int) : Int :=
  let d0 : Int := 6918
  let d1 := d0 + ((-399912) * cos1).tdiv TRIG_MAX_SCALE
  let d2 := d1 + (70257 * sin1).tdiv TRIG_MAX_SCALE
  let d3 := d2 + ((-6758) * cos2).tdiv TRIG_MAX_SCALE
  let d4 := d3 + (907 * sin2).tdiv TRIG_MAX_SCALE
  let d5 := d4 + ((-2697) * cos3).tdiv TRIG_MAX_SCALE
  d5 + (1480 * sin3).tdiv TRIG_MAX_SCALE

/-- Embeds `sun_sin_alt_scaled` from yes_astro.c: sin(solar altitude) scaled by
`TRIG_MAX_SCALE`, for day-of-year `N` and `minute_of_day`, all fixed point. -/
def sun_sin_alt_scaled (T : TrigTable)
    (N minute_of_day lat_e6 lon_e6 tz_offset_min : Int) : Int :=
  let a := (TRIG_MAX_ANGLE * (N - 1)).tdiv 365
  let b := (TRIG_MAX_ANGLE * (minute_of_day - 720)).tdiv (365 * 1440)
  let gamma := toInt32 (a + b)
  let sin1 := T.sinLookup gamma
  let cos1 := T.cosLookup gamma
  let sin2 := T.sinLookup (toInt32 (gamma * 2))
  let cos2 := T.cosLookup (toInt32 (gamma * 2))
  let sin3 := T.sinLookup (toInt32 (gamma * 3))
  let cos3 := T.cosLookup (toInt32 (gamma * 3))
  let eqtime := eqtime_sec sin1 cos1 sin2 cos2
  let decl_trig := rad_e6_to_trig (toInt32 (decl_e6_of sin1 cos1 sin2 cos2 sin3 cos3))
  let lon_term_sec := (240 * lon_e6).tdiv 1000000
  let tst0 := minute_of_day * 60 + eqtime + lon_term_sec - tz_offset_min * 60
  let tst1 := Int.tmod tst0 86400
  let tst_sec := if tst1 < 0 then tst1 + 86400 else tst1
  let ha_trig := toInt32 ((TRIG_MAX_ANGLE * (tst_sec - 43200)).tdiv 86400)
  let lat_trig := deg_e6_to_trig lat_e6
  let sin_lat := T.sinLookup lat_trig
  let cos_lat := T.cosLookup lat_trig
  let sin_dec := T.sinLookup decl_trig
  let cos_dec := T.cosLookup decl_trig
  let cos_ha := T.cosLookup ha_trig
  let term1 := (sin_lat * sin_dec).tdiv TRIG_MAX_SCALE
  let term2a := (cos_lat * cos_dec).tdiv TRIG_MAX_SCALE
  let term2 := (term2a * cos_ha).tdiv TRIG_MAX_SCALE
  let s := term1 + term2
  if s > 2147483647 then 2147483647
  else if s < -2147483648 then -2147483648
  else s

/-- Embeds `SunTimes` from yes_types.h. -/
structure SunTimes where
  valid : Bool
  always_day : Bool
  always_night : Bool
  sunrise_min : Int
  sunset_min : Int
deriving DecidableEq, Repr

/-- Embeds `GeoLoc` from yes_types.h. -/
structure GeoLoc where
  lat_e6 : Int
  lon_e6 : Int
  tz_offset_min : Int
  valid : Bool
deriving DecidableEq, Repr

/-- The fields of the platform `struct tm` that yes_astro.c reads. -/
structure Tm where
  tm_year : Int
  tm_mon : Int
  tm_mday : Int
  tm_hour : Int
  tm_min : Int
deriving DecidableEq, Repr

/-- The above/below-threshold classification of a sample: the C comparison
`s > sin_h0` (strict). -/
def classify (sin_h0 s : Int) : Bool := decide (s > sin_h0)

/-- The refinement loop of `calc_sunrise_sunset_local`: bisect the bracket,
assigning the midpoint to whichever side its classification matches
(`if (ab == prev_above) lo = mid; else hi = mid;`), for `n` iterations. -/
def bisect (f : Int → Bool) (prevAbove : Bool) : Nat → Int × Int → Int × Int
  | 0, br => br
  | n + 1, (lo, hi) =>
    let mid := (lo + hi).tdiv 2
    if f mid = prevAbove then bisect f prevAbove n (mid, hi)
    else bisect f prevAbove n (lo, mid)

/-- The loop state of the coarse scan in `calc_sunrise_sunset_local`:
`rise` / `set` (-1 while unset), the running above count, and the previous
sample's classification. -/
structure ScanState where
  rise : Int
  set : Int
  aboveCount : Nat
  prevAbove : Bool
deriving DecidableEq, Repr

/-- One iteration of the coarse scan loop at loop minute `m` (a multiple of
10; the sampled minute is clamped to 1439 when `m = 1440`). -/
def scanStep (f : Int → Bool) (st : ScanState) (m : Int) : ScanState :=
  let mm := if m = 1440 then 1439 else m
  let above := f mm
  let ac := if above then st.aboveCount + 1 else st.aboveCount
  if above ≠ st.prevAbove then
    let hi := (bisect f st.prevAbove 10 (m - 10, m)).2
    if st.prevAbove = false ∧ above = true then
      { rise := if st.rise < 0 then hi else st.rise, set := st.set,
        aboveCount := ac, prevAbove := above }
    else if st.prevAbove = true ∧ above = false then
      { rise := st.rise, set := if st.set < 0 then hi else st.set,
        aboveCount := ac, prevAbove := above }
    else
      { rise := st.rise, set := st.set, aboveCount := ac, prevAbove := above }
  else
    { rise := st.rise, set := st.set, aboveCount := ac, prevAbove := above }

/-- The state before the loop: sample minute 0, initialise the above count
and `prev_above`; `rise = set = -1`. -/
def initState (f : Int → Bool) : ScanState :=
  let prevAbove := f 0
  { rise := -1, set := -1, aboveCount := if prevAbove then 1 else 0,
    prevAbove := prevAbove }

/-- The coarse scan after its first `k` loop iterations (iteration `j+1`
handles loop minute `10*(j+1)`); the C loop runs `k = 144` iterations,
covering `m = 10, 20, ..., 1440`. -/
def scanUpTo (f : Int → Bool) : Nat → ScanState
  | 0 => initState f
  | j + 1 => scanStep f (scanUpTo f j) (10 * ((j : Int) + 1))

/-- The code after the scan loop of `calc_sunrise_sunset_local`: polar-day /
polar-night vote when nothing was found, otherwise default a missing side to
0 and clamp into [0, 1439].  The result struct starts as
`{valid = true, flags clear, minutes 0}`. -/
def finishScan (st : ScanState) : SunTimes :=
  if st.rise < 0 ∧ st.set < 0 then
    let samples : Nat := 1440 / 10
    if st.aboveCount > samples / 2 then
      { valid := true, always_day := true, always_night := false,
        sunrise_min := 0, sunset_min := 0 }
    else
      { valid := true, always_day := false, always_night := true,
        sunrise_min := 0, sunset_min := 0 }
  else
    let rise := if st.rise < 0 then 0 else st.rise
    let set := if st.set < 0 then 0 else st.set
    { valid := true, always_day := false, always_night := false,
      sunrise_min := clamp_i32 rise 0 1439, sunset_min := clamp_i32 set 0 1439 }

/-- The sunrise/sunset threshold of `calc_sunrise_sunset_local`:
table sine of -0.833 degrees. -/
def sin_h0 (T : TrigTable) : Int := T.sinLookup (deg_e6_to_trig (-833000))

/-- The classifier the scan uses: is the sun above the -0.833 degree
threshold at minute `t` (strict comparison `s > sin_h0`). -/
def sunAbove (T : TrigTable) (N lat_e6 lon_e6 tz_offset_min : Int) : Int → Bool :=
  fun t => classify (sin_h0 T) (sun_sin_alt_scaled T N t lat_e6 lon_e6 tz_offset_min)

/-- Embeds `calc_sunrise_sunset_local` from yes_astro.c, after the double-to-e6
rounding of latitude/longitude (see the file comment): coarse 10-minute scan
with bisection refinement, polar vote, defaulting and clamping. -/
def calc_sunrise_sunset_local (T : TrigTable)
    (year month_1_12 day_1_31 lat_e6 lon_e6 tz_offset_min : Int) : SunTimes :=
  let N := day_of_year year month_1_12 day_1_31
  finishScan (scanUpTo (sunAbove T N lat_e6 lon_e6 tz_offset_min) 144)

/-- Embeds `ymd_for_loc_now` from yes_astro.c.  The platform primitives are explicit
parameters: `now_utc` is the `time(NULL)` reading and `gmtime` the calendar
decomposition (returning `none` where the C call returns NULL).  The C
function's failure return (0, with out-params untouched) is modelled as
`none`; success returns (year, month, day, packed yyyymmdd). -/
def ymd_for_loc_now (gmtime : Int → Option Tm) (now_utc : Int)
    (loc : Option GeoLoc) : Option (Int × Int × Int × Int) :=
  match loc with
  | none => none
  | some l =>
    if l.valid = false then none
    else
      match gmtime (now_utc + l.tz_offset_min * 60) with
      | none => none
      | some t =>
        let y := t.tm_year + 1900
        let m := t.tm_mon + 1
        let d := t.tm_mday
        some (y, m, d, y * 10000 + m * 100 + d)

/-- Embeds `get_location_local_tm` from yes_astro.c, same platform parameters:
returns the shifted calendar breakdown and minutes since midnight. -/
def get_location_local_tm (gmtime : Int → Option Tm) (now_utc : Int)
    (loc : Option GeoLoc) : Option (Tm × Int) :=
  match loc with
  | none => none
  | some l =>
    if l.valid = false then none
    else
      match gmtime (now_utc + l.tz_offset_min * 60) with
      | none => none
      | some t => some (t, t.tm_hour * 60 + t.tm_min)

/-- The minute sampled by the coarse pass at sample index `i` (0 to 144):
`10*i`, with the last sample clamped from 1440 to 1439. -/
def mmOf (i : Nat) : Int := if i = 144 then 1439 else 10 * (i : Int)

/-- The list of minutes at which the coarse pass evaluates the solar-position
function: sample 0 at minute 0, then the 144 loop samples. -/
def coarseMinutes : List Int := (List.range 145).map mmOf

/-- The classification of coarse sample `i` under classifier `f`. -/
def sAbove (f : Int → Bool) (i : Nat) : Bool := f (mmOf i)

/-- The number of above-classified coarse samples among indices 0..k. -/
def countAbove (f : Int → Bool) : Nat → Nat
  | 0 => if sAbove f 0 then 1 else 0
  | j + 1 => countAbove f j + (if sAbove f (j + 1) then 1 else 0)

/-- The index of the first below-to-above transition among the consecutive
sample pairs (i-1, i) for i in 1..k, if any. -/
def firstUp (f : Int → Bool) : Nat → Option Nat
  | 0 => none
  | j + 1 =>
    match firstUp f j with
    | some i => some i
    | none =>
      if sAbove f j = false ∧ sAbove f (j + 1) = true then some (j + 1) else none

/-- The index of the first above-to-below transition among the consecutive
sample pairs (i-1, i) for i in 1..k, if any. -/
def firstDown (f : Int → Bool) : Nat → Option Nat
  | 0 => none
  | j + 1 =>
    match firstDown f j with
    | some i => some i
    | none =>
      if sAbove f j = true ∧ sAbove f (j + 1) = false then some (j + 1) else none

/-- The refined minute produced for the transition ending at sample `i`:
the upper endpoint of the 10-iteration bisection of the bracket
`[10*i - 10, 10*i]`, run with previous-state classification `pa`. -/
def crossMin (f : Int → Bool) (pa : Bool) (i : Nat) : Int :=
  (bisect f pa 10 (10 * (i : Int) - 10, 10 * (i : Int))).2

/-- The `rise` value held by the scan after `k` iterations: -1 if no
below-to-above transition occurred yet, otherwise the refinement of the
first one. -/
def riseOf (f : Int → Bool) (k : Nat) : Int :=
  match firstUp f k with
  | none => -1
  | some i => crossMin f false i

/-- The `set` value held by the scan after `k` iterations: -1 if no
above-to-below transition occurred yet, otherwise the refinement of the
first one. -/
def setOf (f : Int → Bool) (k : Nat) : Int :=
  match firstDown f k with
  | none => -1
  | some i => crossMin f true i

/-- Modelled from the spec (section 4.2, step 3): the equation of time in
seconds is `13750800 * [75 + 1868 cosG - 32077 sinG - 14615 cos2G
- 40849 sin2G]`, the bracket in parts-per-million with each table-trig term
divided by the ratio constant, and the final product divided by 1e6. -/
def eqtime_sec_formula (sinG cosG sin2G cos2G : Int) : Int :=
  (13750800 *
    (75 + (1868 * cosG).tdiv TRIG_MAX_SCALE
        - (32077 * sinG).tdiv TRIG_MAX_SCALE
        - (14615 * cos2G).tdiv TRIG_MAX_SCALE
        - (40849 * sin2G).tdiv TRIG_MAX_SCALE)).tdiv 1000000

/-- A concrete trig table (identically zero), used to instantiate theorems
at a closed input. -/
def trigZero : TrigTable := { sinLookup := fun _ => 0, cosLookup := fun _ => 0 }

/-- A concrete trig table (zero sine, identity cosine); on 2024-06-21 at
45 degrees north it produces one sunrise and one sunset crossing. -/
def trigCosId : TrigTable := { sinLookup := fun _ => 0, cosLookup := fun a => a }

/-- The scan state `trigCosId` produces on 2024-06-21 at 45 degrees north. -/
def stCosId : ScanState :=
  { rise := 51, set := 773, aboveCount := 72, prevAbove := false }

/-- The `int32_t` cast is the identity on values already in range. -/
theorem toInt32_eq_self (v : Int) (h1 : -2147483648 ≤ v) (h2 : v ≤ 2147483647) :
    toInt32 v = v := by
  unfold toInt32
  omega

/-- Truncating division shrinks: `|a.tdiv b| * b ≤ |a|` for positive `b`. -/
theorem abs_tdiv_mul_le (a b : Int) (hb : 0 < b) : |Int.tdiv a b| * b ≤ |a| := by
  rw [Int.abs_eq_natAbs, Int.abs_eq_natAbs, Int.natAbs_tdiv]
  have hb2 : ((b.natAbs : Int)) = b := Int.natAbs_of_nonneg hb.le
  rw [← hb2, ← Nat.cast_mul]
  exact_mod_cast Nat.div_mul_le_self _ _

/-- A trig term of the NOAA series is bounded by its coefficient once the
trig factor is within the table ratio. -/
theorem tdiv_ratio_le (c x : Int) (hx : |x| ≤ TRIG_MAX_SCALE) :
    |(c * x).tdiv TRIG_MAX_SCALE| ≤ |c| := by
  have h := abs_tdiv_mul_le (c * x) TRIG_MAX_SCALE (by norm_num [TRIG_MAX_SCALE])
  have h2 : |c * x| ≤ |c| * TRIG_MAX_SCALE := by
    rw [abs_mul]
    exact mul_le_mul_of_nonneg_left hx (abs_nonneg c)
  exact le_of_mul_le_mul_right (le_trans h h2) (by norm_num [TRIG_MAX_SCALE])

/-- Clamping lands in the target interval. -/
theorem clamp_i32_mem (v lo hi : Int) (h : lo ≤ hi) :
    lo ≤ clamp_i32 v lo hi ∧ clamp_i32 v lo hi ≤ hi := by
  unfold clamp_i32
  split_ifs <;> omega

/-- The bisection keeps its bracket nested and, after `n` iterations,
the bracket width `hi - lo` obeys `2^n * width ≤ width0 + 2^n - 1`
(integer ceiling-halving at each step). -/
theorem bisect_spec (f : Int → Bool) (pa : Bool) :
    ∀ (n : Nat) (lo hi : Int), 0 ≤ lo → lo ≤ hi →
      lo ≤ (bisect f pa n (lo, hi)).1 ∧
      (bisect f pa n (lo, hi)).1 ≤ (bisect f pa n (lo, hi)).2 ∧
      (bisect f pa n (lo, hi)).2 ≤ hi ∧
      2 ^ n * ((bisect f pa n (lo, hi)).2 - (bisect f pa n (lo, hi)).1) ≤
        hi - lo + 2 ^ n - 1 := by
  intro n
  induction n with
  | zero =>
    intro lo hi h0 h
    simp only [bisect, pow_zero]
    refine ⟨le_refl lo, h, le_refl hi, by omega⟩
  | succ n ih =>
    intro lo hi h0 h
    have hmid : (lo + hi).tdiv 2 = (lo + hi) / 2 := Int.tdiv_eq_ediv (by omega) (by omega)
    have hb1 : lo ≤ (lo + hi).tdiv 2 := by rw [hmid]; omega
    have hb2 : (lo + hi).tdiv 2 ≤ hi := by rw [hmid]; omega
    have hb3 : lo + hi - 1 ≤ 2 * ((lo + hi).tdiv 2) := by rw [hmid]; omega
    have hb4 : 2 * ((lo + hi).tdiv 2) ≤ lo + hi := by rw [hmid]; omega
    by_cases hc : f ((lo + hi).tdiv 2) = pa
    · have hred : bisect f pa (n + 1) (lo, hi) = bisect f pa n ((lo + hi).tdiv 2, hi) := by
        simp [bisect, hc]
      obtain ⟨i1, i2, i3, i4⟩ := ih ((lo + hi).tdiv 2) hi (le_trans h0 hb1) hb2
      rw [hred]
      refine ⟨le_trans hb1 i1, i2, i3, ?_⟩
      have h2 : 2 * (2 ^ n *
          ((bisect f pa n ((lo + hi).tdiv 2, hi)).2 -
            (bisect f pa n ((lo + hi).tdiv 2, hi)).1)) ≤
          2 * (hi - (lo + hi).tdiv 2 + 2 ^ n - 1) := by linarith
      have h3 : (2 : Int) ^ (n + 1) *
          ((bisect f pa n ((lo + hi).tdiv 2, hi)).2 -
            (bisect f pa n ((lo + hi).tdiv 2, hi)).1) =
          2 * (2 ^ n *
          ((bisect f pa n ((lo + hi).tdiv 2, hi)).2 -
            (bisect f pa n ((lo + hi).tdiv 2, hi)).1)) := by ring
      have h4 : (2 : Int) ^ (n + 1) = 2 * 2 ^ n := by ring
      rw [h3, h4]
      linarith
    · have hred : bisect f pa (n + 1) (lo, hi) = bisect f pa n (lo, (lo + hi).tdiv 2) := by
        simp [bisect, hc]
      obtain ⟨i1, i2, i3, i4⟩ := ih lo ((lo + hi).tdiv 2) h0 hb1
      rw [hred]
      refine ⟨i1, i2, le_trans i3 hb2, ?_⟩
      have h2 : 2 * (2 ^ n *
          ((bisect f pa n (lo, (lo + hi).tdiv 2)).2 -
            (bisect f pa n (lo, (lo + hi).tdiv 2)).1)) ≤
          2 * ((lo + hi).tdiv 2 - lo + 2 ^ n - 1) := by linarith
      have h3 : (2 : Int) ^ (n + 1) *
          ((bisect f pa n (lo, (lo + hi).tdiv 2)).2 -
            (bisect f pa n (lo, (lo + hi).tdiv 2)).1) =
          2 * (2 ^ n *
          ((bisect f pa n (lo, (lo + hi).tdiv 2)).2 -
            (bisect f pa n (lo, (lo + hi).tdiv 2)).1)) := by ring
      have h4 : (2 : Int) ^ (n + 1) = 2 * 2 ^ n := by ring
      rw [h3, h4]
      linarith

/-- A first up-transition index lies in 1..k. -/
theorem firstUp_le (f : Int → Bool) :
    ∀ k i : Nat, firstUp f k = some i → 1 ≤ i ∧ i ≤ k := by
  intro k
  induction k with
  | zero => intro i h; simp [firstUp] at h
  | succ j ih =>
    intro i h
    rw [firstUp] at h
    cases hfu : firstUp f j with
    | some i2 =>
      rw [hfu] at h
      simp only [Option.some.injEq] at h
      subst h
      obtain ⟨a, b⟩ := ih i2 hfu
      omega
    | none =>
      rw [hfu] at h
      split_ifs at h
      · simp only [Option.some.injEq] at h
        omega

/-- A first down-transition index lies in 1..k. -/
theorem firstDown_le (f : Int → Bool) :
    ∀ k i : Nat, firstDown f k = some i → 1 ≤ i ∧ i ≤ k := by
  intro k
  induction k with
  | zero => intro i h; simp [firstDown] at h
  | succ j ih =>
    intro i h
    rw [firstDown] at h
    cases hfu : firstDown f j with
    | some i2 =>
      rw [hfu] at h
      simp only [Option.some.injEq] at h
      subst h
      obtain ⟨a, b⟩ := ih i2 hfu
      omega
    | none =>
      rw [hfu] at h
      split_ifs at h
      · simp only [Option.some.injEq] at h
        omega

theorem firstUp_succ_old (f : Int → Bool) (j i : Nat) (h : firstUp f j = some i) :
    firstUp f (j + 1) = some i := by
  rw [firstUp, h]

theorem firstDown_succ_old (f : Int → Bool) (j i : Nat) (h : firstDown f j = some i) :
    firstDown f (j + 1) = some i := by
  rw [firstDown, h]

theorem firstUp_succ_new (f : Int → Bool) (j : Nat) (h : firstUp f j = none)
    (h0 : sAbove f j = false) (h1 : sAbove f (j + 1) = true) :
    firstUp f (j + 1) = some (j + 1) := by
  rw [firstUp, h]
  simp [h0, h1]

theorem firstDown_succ_new (f : Int → Bool) (j : Nat) (h : firstDown f j = none)
    (h0 : sAbove f j = true) (h1 : sAbove f (j + 1) = false) :
    firstDown f (j + 1) = some (j + 1) := by
  rw [firstDown, h]
  simp [h0, h1]

/-- Without a new up-transition at step j+1 the first up-transition is
unchanged. -/
theorem firstUp_succ_not (f : Int → Bool) (j : Nat)
    (h : ¬(sAbove f j = false ∧ sAbove f (j + 1) = true)) :
    firstUp f (j + 1) = firstUp f j := by
  cases hfu : firstUp f j with
  | some i => exact firstUp_succ_old f j i hfu
  | none => rw [firstUp, hfu]; simp [h]

/-- Without a new down-transition at step j+1 the first down-transition is
unchanged. -/
theorem firstDown_succ_not (f : Int → Bool) (j : Nat)
    (h : ¬(sAbove f j = true ∧ sAbove f (j + 1) = false)) :
    firstDown f (j + 1) = firstDown f j := by
  cases hfu : firstDown f j with
  | some i => exact firstDown_succ_old f j i hfu
  | none => rw [firstDown, hfu]; simp [h]

/-- A refined crossing minute is nonnegative (its bracket starts at
`10*i - 10 ≥ 0`). -/
theorem crossMin_nonneg (f : Int → Bool) (pa : Bool) (i : Nat) (hi : 1 ≤ i) :
    0 ≤ crossMin f pa i := by
  have hic : (1 : Int) ≤ (i : Int) := by exact_mod_cast hi
  have h := bisect_spec f pa 10 (10 * (i : Int) - 10) (10 * (i : Int))
    (by omega) (by omega)
  unfold crossMin
  omega

/-- If all samples classify like sample 0, no up-transition exists. -/
theorem firstUp_of_const (f : Int → Bool) :
    ∀ k : Nat, (∀ i, i ≤ k → sAbove f i = sAbove f 0) → firstUp f k = none := by
  intro k
  induction k with
  | zero => intro _; rfl
  | succ j ih =>
    intro h
    have hj := ih (fun i hi => h i (by omega))
    rw [firstUp, hj]
    have h0 := h j (by omega)
    have h1 := h (j + 1) (by omega)
    split_ifs with hcond
    · rw [h0] at hcond
      rw [h1] at hcond
      simp at hcond
    · rfl

/-- If all samples classify like sample 0, no down-transition exists. -/
theorem firstDown_of_const (f : Int → Bool) :
    ∀ k : Nat, (∀ i, i ≤ k → sAbove f i = sAbove f 0) → firstDown f k = none := by
  intro k
  induction k with
  | zero => intro _; rfl
  | succ j ih =>
    intro h
    have hj := ih (fun i hi => h i (by omega))
    rw [firstDown, hj]
    have h0 := h j (by omega)
    have h1 := h (j + 1) (by omega)
    split_ifs with hcond
    · rw [h0] at hcond
      rw [h1] at hcond
      simp at hcond
    · rfl

/-- The running above count equals the count of above-classified samples. -/
theorem countAbove_eq_countP (f : Int → Bool) :
    ∀ k : Nat, countAbove f k = ((List.range (k + 1)).map mmOf).countP f := by
  intro k
  rw [List.countP_map]
  induction k with
  | zero =>
    simp [countAbove, sAbove, List.range_succ, List.countP_append, List.countP_cons,
      Function.comp]
  | succ j ih =>
    rw [countAbove, ih]
    conv_rhs => rw [List.range_succ]
    rw [List.countP_append]
    simp [List.countP_cons, Function.comp, sAbove]

/-- The scan step when the new sample classifies like the previous one:
only the count and the previous-classification field change. -/
theorem scanStep_no_trans (f : Int → Bool) (st : ScanState) (m : Int)
    (h : f (if m = 1440 then 1439 else m) = st.prevAbove) :
    scanStep f st m =
      { rise := st.rise, set := st.set,
        aboveCount := if st.prevAbove then st.aboveCount + 1 else st.aboveCount,
        prevAbove := st.prevAbove } := by
  simp [scanStep, h]

/-- The scan step on a below-to-above transition: refine by bisection and
record it as sunrise if none was recorded yet. -/
theorem scanStep_up (f : Int → Bool) (st : ScanState) (m : Int)
    (h0 : st.prevAbove = false) (h1 : f (if m = 1440 then 1439 else m) = true) :
    scanStep f st m =
      { rise := if st.rise < 0 then (bisect f false 10 (m - 10, m)).2 else st.rise,
        set := st.set, aboveCount := st.aboveCount + 1, prevAbove := true } := by
  simp [scanStep, h0, h1]

/-- The scan step on an above-to-below transition: refine by bisection and
record it as sunset if none was recorded yet. -/
theorem scanStep_down (f : Int → Bool) (st : ScanState) (m : Int)
    (h0 : st.prevAbove = true) (h1 : f (if m = 1440 then 1439 else m) = false) :
    scanStep f st m =
      { rise := st.rise,
        set := if st.set < 0 then (bisect f true 10 (m - 10, m)).2 else st.set,
        aboveCount := st.aboveCount, prevAbove := false } := by
  simp [scanStep, h0, h1]

/-- The central invariant of the coarse scan: after `k` loop iterations the
state holds the refinement of the first up-transition so far in `rise`, of
the first down-transition so far in `set`, the running above count, and the
latest classification. -/
theorem scanUpTo_eq (f : Int → Bool) :
    ∀ k : Nat, scanUpTo f k =
      { rise := riseOf f k, set := setOf f k,
        aboveCount := countAbove f k, prevAbove := sAbove f k } := by
  intro k
  induction k with
  | zero =>
    simp [scanUpTo, initState, riseOf, setOf, countAbove, sAbove, firstUp, firstDown, mmOf]
  | succ j ih =>
    rw [scanUpTo, ih]
    have hmm : (if (10 : Int) * ((j : Int) + 1) = 1440 then (1439 : Int)
        else 10 * ((j : Int) + 1)) = mmOf (j + 1) := by
      unfold mmOf
      rcases eq_or_ne (j + 1) 144 with h144 | h144
      · have hj : j = 143 := by omega
        subst hj
        norm_num
      · have hne : (10 : Int) * ((j : Int) + 1) ≠ 1440 := by omega
        simp only [hne, if_false, h144, if_false]
        push_cast
        ring
    have hbr : (10 : Int) * ((j : Int) + 1) = 10 * ((j + 1 : Nat) : Int) := by
      push_cast
      ring
    cases hpa : sAbove f j <;> cases hab : sAbove f (j + 1)
    · -- no transition, both below
      rw [scanStep_no_trans f _ _ (by rw [hmm]; exact hab)]
      simp only [ScanState.mk.injEq]
      refine ⟨?_, ?_, ?_, ?_⟩
      · simp only [riseOf, firstUp_succ_not f j (by simp [hpa, hab])]
      · simp only [setOf, firstDown_succ_not f j (by simp [hpa, hab])]
      · simp [countAbove, hab]
      · simp [hab]
    · -- up transition
      rw [scanStep_up f _ _ (by rfl) (by rw [hmm]; exact hab)]
      rw [hbr]
      simp only [ScanState.mk.injEq]
      refine ⟨?_, ?_, ?_, ?_⟩
      · cases hfu : firstUp f j with
        | none =>
          simp only [riseOf, hfu, firstUp_succ_new f j hfu hpa hab, crossMin]
          norm_num
        | some i =>
          have hnn : 0 ≤ crossMin f false i :=
            crossMin_nonneg f false i (firstUp_le f j i hfu).1
          simp only [riseOf, hfu, firstUp_succ_old f j i hfu]
          have hlt : ¬(crossMin f false i < 0) := by omega
          simp [hlt]
      · simp only [setOf, firstDown_succ_not f j (by simp [hpa])]
      · simp [countAbove, hab]
      · simp [hab]
    · -- down transition
      rw [scanStep_down f _ _ (by rfl) (by rw [hmm]; exact hab)]
      rw [hbr]
      simp only [ScanState.mk.injEq]
      refine ⟨?_, ?_, ?_, ?_⟩
      · simp only [riseOf, firstUp_succ_not f j (by simp [hpa])]
      · cases hfd : firstDown f j with
        | none =>
          simp only [setOf, hfd, firstDown_succ_new f j hfd hpa hab, crossMin]
          norm_num
        | some i =>
          have hnn : 0 ≤ crossMin f true i :=
            crossMin_nonneg f true i (firstDown_le f j i hfd).1
          simp only [setOf, hfd, firstDown_succ_old f j i hfd]
          have hlt : ¬(crossMin f true i < 0) := by omega
          simp [hlt]
      · simp [countAbove, hab]
      · simp [hab]
    · -- no transition, both above
      rw [scanStep_no_trans f _ _ (by rw [hmm]; exact hab)]
      simp only [ScanState.mk.injEq]
      refine ⟨?_, ?_, ?_, ?_⟩
      · simp only [riseOf, firstUp_succ_not f j (by simp [hpa])]
      · simp only [setOf, firstDown_succ_not f j (by simp [hab])]
      · simp [countAbove, hab]
      · simp [hab]

/-- C1: for every input, the `SunTimes` returned by
`calc_sunrise_sunset_local` has at most one of `always_day` / `always_night`
set, and whenever both are clear, both `sunrise_min` and `sunset_min` hold
minute-of-day values in 0..1439 (the result is also always marked valid). -/
theorem claim1_suntimes_invariant (T : TrigTable)
    (year month_1_12 day_1_31 lat_e6 lon_e6 tz_offset_min : Int) :
    ¬((calc_sunrise_sunset_local T year month_1_12 day_1_31 lat_e6 lon_e6
        tz_offset_min).always_day = true ∧
      (calc_sunrise_sunset_local T year month_1_12 day_1_31 lat_e6 lon_e6
        tz_offset_min).always_night = true) ∧
    ((calc_sunrise_sunset_local T year month_1_12 day_1_31 lat_e6 lon_e6
        tz_offset_min).always_day = false ∧
     (calc_sunrise_sunset_local T year month_1_12 day_1_31 lat_e6 lon_e6
        tz_offset_min).always_night = false →
      0 ≤ (calc_sunrise_sunset_local T year month_1_12 day_1_31 lat_e6 lon_e6
            tz_offset_min).sunrise_min ∧
      (calc_sunrise_sunset_local T year month_1_12 day_1_31 lat_e6 lon_e6
            tz_offset_min).sunrise_min ≤ 1439 ∧
      0 ≤ (calc_sunrise_sunset_local T year month_1_12 day_1_31 lat_e6 lon_e6
            tz_offset_min).sunset_min ∧
      (calc_sunrise_sunset_local T year month_1_12 day_1_31 lat_e6 lon_e6
            tz_offset_min).sunset_min ≤ 1439) := by
  simp only [calc_sunrise_sunset_local, finishScan]
  set st := scanUpTo (sunAbove T (day_of_year year month_1_12 day_1_31)
    lat_e6 lon_e6 tz_offset_min) 144 with hstdef
  by_cases h1 : st.rise < 0 ∧ st.set < 0
  · rw [if_pos h1]
    by_cases h2 : st.aboveCount > (1440 / 10 : Nat) / 2
    · rw [if_pos h2]
      simp
    · rw [if_neg h2]
      simp
  · rw [if_neg h1]
    have hr := clamp_i32_mem (if st.rise < 0 then 0 else st.rise) 0 1439 (by norm_num)
    have hs := clamp_i32_mem (if st.set < 0 then 0 else st.set) 0 1439 (by norm_num)
    exact ⟨by simp, fun _ => ⟨hr.1, hr.2, hs.1, hs.2⟩⟩

/-- C1 witness: the invariant instantiated at a closed input. -/
theorem claim1_suntimes_invariant_witness :
    ¬((calc_sunrise_sunset_local trigZero 2024 6 21 45000000 0 0).always_day = true ∧
      (calc_sunrise_sunset_local trigZero 2024 6 21 45000000 0 0).always_night = true) ∧
    ((calc_sunrise_sunset_local trigZero 2024 6 21 45000000 0 0).always_day = false ∧
     (calc_sunrise_sunset_local trigZero 2024 6 21 45000000 0 0).always_night = false →
      0 ≤ (calc_sunrise_sunset_local trigZero 2024 6 21 45000000 0 0).sunrise_min ∧
      (calc_sunrise_sunset_local trigZero 2024 6 21 45000000 0 0).sunrise_min ≤ 1439 ∧
      0 ≤ (calc_sunrise_sunset_local trigZero 2024 6 21 45000000 0 0).sunset_min ∧
      (calc_sunrise_sunset_local trigZero 2024 6 21 45000000 0 0).sunset_min ≤ 1439) :=
  claim1_suntimes_invariant trigZero 2024 6 21 45000000 0 0

/-- C3 as stated is false: the bisection runs on integer minutes, so it
cannot reach ~0.01-minute resolution.  On the bracket [120, 130] with the
crossing between minutes 122 and 123 the final bracket after the 10
iterations is (122, 123): its width is a full minute (here scaled by 100:
the width is 100/100 minute, not at most 1/100). -/
theorem claim3_counterexample :
    bisect (fun t => decide (123 ≤ t)) false 10 (120, 130) = (122, 123) ∧
    ¬(100 * ((bisect (fun t => decide (123 ≤ t)) false 10 (120, 130)).2 -
        (bisect (fun t => decide (123 ≤ t)) false 10 (120, 130)).1) ≤ 1) := by
  decide

/-- C3 (amended): on each detected sign change the solver bisects the
10-minute bracket for exactly 10 midpoint iterations, each midpoint joining
whichever side its above/below state matches; because the endpoints are
integer minutes the final bracket is nested in the original and has width at
most one minute (about 1-minute resolution, not 0.01). -/
theorem claim3_bisect_refines (f : Int → Bool) (pa : Bool) (m : Int)
    (hm : 10 ≤ m) :
    m - 10 ≤ (bisect f pa 10 (m - 10, m)).1 ∧
    (bisect f pa 10 (m - 10, m)).1 ≤ (bisect f pa 10 (m - 10, m)).2 ∧
    (bisect f pa 10 (m - 10, m)).2 ≤ m ∧
    (bisect f pa 10 (m - 10, m)).2 - (bisect f pa 10 (m - 10, m)).1 ≤ 1 := by
  obtain ⟨h1, h2, h3, h4⟩ := bisect_spec f pa 10 (m - 10) m (by omega) (by omega)
  refine ⟨h1, h2, h3, ?_⟩
  norm_num at h4
  omega

/-- C3 witness: the amended bracket facts at a closed input. -/
theorem claim3_bisect_refines_witness :
    (10 : Int) ≤ 130 ∧
    (130 - 10 ≤ (bisect (fun t => decide (0 < t)) true 10 (130 - 10, 130)).1 ∧
     (bisect (fun t => decide (0 < t)) true 10 (130 - 10, 130)).1 ≤
       (bisect (fun t => decide (0 < t)) true 10 (130 - 10, 130)).2 ∧
     (bisect (fun t => decide (0 < t)) true 10 (130 - 10, 130)).2 ≤ 130 ∧
     (bisect (fun t => decide (0 < t)) true 10 (130 - 10, 130)).2 -
       (bisect (fun t => decide (0 < t)) true 10 (130 - 10, 130)).1 ≤ 1) :=
  ⟨by norm_num, claim3_bisect_refines (fun t => decide (0 < t)) true 130 (by norm_num)⟩

/-- C4: the scan reports exactly the bisection refinement of the first
below-to-above transition as `rise` and of the first above-to-below
transition as `set` (-1 when none occurred); later transitions of the same
kind have no effect.  The solver's result is the post-processing of that
scan state. -/
theorem claim4_first_crossings (T : TrigTable)
    (year month_1_12 day_1_31 lat_e6 lon_e6 tz_offset_min : Int) :
    (scanUpTo (sunAbove T (day_of_year year month_1_12 day_1_31) lat_e6 lon_e6
        tz_offset_min) 144).rise =
      riseOf (sunAbove T (day_of_year year month_1_12 day_1_31) lat_e6 lon_e6
        tz_offset_min) 144 ∧
    (scanUpTo (sunAbove T (day_of_year year month_1_12 day_1_31) lat_e6 lon_e6
        tz_offset_min) 144).set =
      setOf (sunAbove T (day_of_year year month_1_12 day_1_31) lat_e6 lon_e6
        tz_offset_min) 144 ∧
    calc_sunrise_sunset_local T year month_1_12 day_1_31 lat_e6 lon_e6
        tz_offset_min =
      finishScan (scanUpTo (sunAbove T (day_of_year year month_1_12 day_1_31)
        lat_e6 lon_e6 tz_offset_min) 144) :=
  ⟨by rw [scanUpTo_eq], by rw [scanUpTo_eq], rfl⟩

/-- C5 as stated is false: the coarse pass evaluates the solar-position
function 145 times (minute 0 plus the 144 loop samples), not 144. -/
theorem claim5_counterexample :
    coarseMinutes.length = 145 ∧ ¬(coarseMinutes.length = 144) := by
  decide

/-- C5 (amended): the coarse samples are minute 0, then every multiple of 10
through 1440 with the final sample clamped to 1439 — 145 evaluations in all —
and the scan's running above count equals the number of above-classified
coarse samples. -/
theorem claim5_coarse_sampling (f : Int → Bool) :
    coarseMinutes =
      ((List.range 144).map (fun i => ((10 * i : Nat) : Int))) ++ [1439] ∧
    coarseMinutes.length = 145 ∧
    (scanUpTo f 144).aboveCount = coarseMinutes.countP f := by
  refine ⟨by decide, by decide, ?_⟩
  rw [scanUpTo_eq]
  exact countAbove_eq_countP f 144

/-- C2: when no threshold crossing is detected between any pair of
consecutive coarse samples (all 145 samples classify alike), the solver sets
`always_day` exactly when more than half of the 145 samples were above,
otherwise `always_night`, and returns with the rise/set minute fields left
at their initial value 0. -/
theorem claim2_no_crossing (T : TrigTable)
    (year month_1_12 day_1_31 lat_e6 lon_e6 tz_offset_min : Int)
    (h : ∀ i : Nat, i < 145 →
      sAbove (sunAbove T (day_of_year year month_1_12 day_1_31) lat_e6 lon_e6
        tz_offset_min) i =
      sAbove (sunAbove T (day_of_year year month_1_12 day_1_31) lat_e6 lon_e6
        tz_offset_min) 0) :
    ((calc_sunrise_sunset_local T year month_1_12 day_1_31 lat_e6 lon_e6
        tz_offset_min).always_day = true ↔
      145 < 2 * countAbove (sunAbove T (day_of_year year month_1_12 day_1_31)
        lat_e6 lon_e6 tz_offset_min) 144) ∧
    (calc_sunrise_sunset_local T year month_1_12 day_1_31 lat_e6 lon_e6
        tz_offset_min).always_night =
      (!(calc_sunrise_sunset_local T year month_1_12 day_1_31 lat_e6 lon_e6
        tz_offset_min).always_day) ∧
    (calc_sunrise_sunset_local T year month_1_12 day_1_31 lat_e6 lon_e6
        tz_offset_min).sunrise_min = 0 ∧
    (calc_sunrise_sunset_local T year month_1_12 day_1_31 lat_e6 lon_e6
        tz_offset_min).sunset_min = 0 ∧
    (calc_sunrise_sunset_local T year month_1_12 day_1_31 lat_e6 lon_e6
        tz_offset_min).valid = true := by
  have hup := firstUp_of_const
    (sunAbove T (day_of_year year month_1_12 day_1_31) lat_e6 lon_e6 tz_offset_min)
    144 (fun i hi => h i (by omega))
  have hdn := firstDown_of_const
    (sunAbove T (day_of_year year month_1_12 day_1_31) lat_e6 lon_e6 tz_offset_min)
    144 (fun i hi => h i (by omega))
  simp only [calc_sunrise_sunset_local, finishScan, scanUpTo_eq, riseOf, setOf,
    hup, hdn]
  norm_num
  by_cases hc : 72 < countAbove (sunAbove T (day_of_year year month_1_12 day_1_31)
      lat_e6 lon_e6 tz_offset_min) 144
  · simp [hc]
    omega
  · simp [hc]
    omega

/-- C2 witness: the all-zero trig table classifies every sample below, so the
vote yields always-night. -/
theorem claim2_no_crossing_witness :
    (∀ i : Nat, i < 145 →
      sAbove (sunAbove trigZero (day_of_year 2024 6 21) 45000000 0 0) i =
      sAbove (sunAbove trigZero (day_of_year 2024 6 21) 45000000 0 0) 0) ∧
    (((calc_sunrise_sunset_local trigZero 2024 6 21 45000000 0 0).always_day = true ↔
      145 < 2 * countAbove (sunAbove trigZero (day_of_year 2024 6 21) 45000000 0 0) 144) ∧
    (calc_sunrise_sunset_local trigZero 2024 6 21 45000000 0 0).always_night =
      (!(calc_sunrise_sunset_local trigZero 2024 6 21 45000000 0 0).always_day) ∧
    (calc_sunrise_sunset_local trigZero 2024 6 21 45000000 0 0).sunrise_min = 0 ∧
    (calc_sunrise_sunset_local trigZero 2024 6 21 45000000 0 0).sunset_min = 0 ∧
    (calc_sunrise_sunset_local trigZero 2024 6 21 45000000 0 0).valid = true) :=
  ⟨by decide, claim2_no_crossing trigZero 2024 6 21 45000000 0 0 (by decide)⟩

/-- C6: whenever at least one crossing was found, the solver clears both
polar flags and stores, for each side, 0 if that side was not found and
otherwise its refined value clamped into [0, 1439]. -/
theorem claim6_default_and_clamp (T : TrigTable)
    (year month_1_12 day_1_31 lat_e6 lon_e6 tz_offset_min : Int) (st : ScanState)
    (hst : scanUpTo (sunAbove T (day_of_year year month_1_12 day_1_31) lat_e6
      lon_e6 tz_offset_min) 144 = st)
    (hfound : ¬(st.rise < 0 ∧ st.set < 0)) :
    calc_sunrise_sunset_local T year month_1_12 day_1_31 lat_e6 lon_e6
        tz_offset_min =
      { valid := true, always_day := false, always_night := false,
        sunrise_min := clamp_i32 (if st.rise < 0 then 0 else st.rise) 0 1439,
        sunset_min := clamp_i32 (if st.set < 0 then 0 else st.set) 0 1439 } := by
  simp only [calc_sunrise_sunset_local, hst, finishScan]
  rw [if_neg hfound]

/-- C6 witness: a trig table with one sunrise and one sunset crossing. -/
theorem claim6_default_and_clamp_witness :
    (scanUpTo (sunAbove trigCosId (day_of_year 2024 6 21) 45000000 0 0) 144 =
      stCosId) ∧
    ¬(stCosId.rise < 0 ∧ stCosId.set < 0) ∧
    calc_sunrise_sunset_local trigCosId 2024 6 21 45000000 0 0 =
      { valid := true, always_day := false, always_night := false,
        sunrise_min := clamp_i32 (if stCosId.rise < 0 then 0 else stCosId.rise) 0 1439,
        sunset_min := clamp_i32 (if stCosId.set < 0 then 0 else stCosId.set) 0 1439 } :=
  ⟨by decide, by decide,
    claim6_default_and_clamp trigCosId 2024 6 21 45000000 0 0 stCosId
      (by decide) (by decide)⟩

/-- C7: the equation-of-time computation equals the spec's formula
`13750800 * [75 + 1868 cosG - 32077 sinG - 14615 cos2G - 40849 sin2G] / 1e6`
(bracket in ppm, each trig term divided by the ratio constant) with exactly
those integer coefficients, whenever the trig samples are within the table
ratio (so that the final `int32_t` narrowing cannot overflow). -/
theorem claim7_eqtime_formula (sinG cosG sin2G cos2G : Int)
    (h1 : |sinG| ≤ TRIG_MAX_SCALE) (h2 : |cosG| ≤ TRIG_MAX_SCALE)
    (h3 : |sin2G| ≤ TRIG_MAX_SCALE) (h4 : |cos2G| ≤ TRIG_MAX_SCALE) :
    eqtime_sec sinG cosG sin2G cos2G = eqtime_sec_formula sinG cosG sin2G cos2G := by
  simp only [eqtime_sec, eqtime_sec_formula]
  have ea : ((-32077 : Int) * sinG).tdiv TRIG_MAX_SCALE =
      -((32077 * sinG).tdiv TRIG_MAX_SCALE) := by
    rw [show ((-32077 : Int) * sinG) = -(32077 * sinG) by ring, Int.neg_tdiv]
  have eb : ((-14615 : Int) * cos2G).tdiv TRIG_MAX_SCALE =
      -((14615 * cos2G).tdiv TRIG_MAX_SCALE) := by
    rw [show ((-14615 : Int) * cos2G) = -(14615 * cos2G) by ring, Int.neg_tdiv]
  have ec : ((-40849 : Int) * sin2G).tdiv TRIG_MAX_SCALE =
      -((40849 * sin2G).tdiv TRIG_MAX_SCALE) := by
    rw [show ((-40849 : Int) * sin2G) = -(40849 * sin2G) by ring, Int.neg_tdiv]
  rw [ea, eb, ec]
  set a := (1868 * cosG).tdiv TRIG_MAX_SCALE with hadef
  set b := (32077 * sinG).tdiv TRIG_MAX_SCALE with hbdef
  set c := (14615 * cos2G).tdiv TRIG_MAX_SCALE with hcdef
  set d := (40849 * sin2G).tdiv TRIG_MAX_SCALE with hddef
  have harg : (75 : Int) + a + -b + -c + -d = 75 + a - b - c - d := by ring
  rw [harg]
  have ba : |a| ≤ 1868 := by
    have := tdiv_ratio_le 1868 cosG h2
    rwa [abs_of_nonneg (by norm_num : (0 : Int) ≤ 1868)] at this
  have bb : |b| ≤ 32077 := by
    have := tdiv_ratio_le 32077 sinG h1
    rwa [abs_of_nonneg (by norm_num : (0 : Int) ≤ 32077)] at this
  have bc : |c| ≤ 14615 := by
    have := tdiv_ratio_le 14615 cos2G h4
    rwa [abs_of_nonneg (by norm_num : (0 : Int) ≤ 14615)] at this
  have bd : |d| ≤ 40849 := by
    have := tdiv_ratio_le 40849 sin2G h3
    rwa [abs_of_nonneg (by norm_num : (0 : Int) ≤ 40849)] at this
  have hsum : |(75 : Int) + a - b - c - d| ≤ 89484 := by
    rw [abs_le] at ba bb bc bd ⊢
    omega
  have hV := abs_tdiv_mul_le (13750800 * ((75 : Int) + a - b - c - d)) 1000000
    (by norm_num)
  have hV2 : |(13750800 : Int) * ((75 : Int) + a - b - c - d)| =
      13750800 * |(75 : Int) + a - b - c - d| := by
    rw [abs_mul, abs_of_nonneg (by norm_num : (0 : Int) ≤ 13750800)]
  rw [hV2] at hV
  have hVle : |(13750800 * ((75 : Int) + a - b - c - d)).tdiv 1000000| ≤ 1230477 := by
    linarith
  rw [abs_le] at hVle
  exact toInt32_eq_self _ (by omega) (by omega)

/-- C7 witness: the equality at closed trig samples within the ratio. -/
theorem claim7_eqtime_formula_witness :
    (|(65535 : Int)| ≤ TRIG_MAX_SCALE ∧ |(-65535 : Int)| ≤ TRIG_MAX_SCALE ∧
     |(12345 : Int)| ≤ TRIG_MAX_SCALE ∧ |(0 : Int)| ≤ TRIG_MAX_SCALE) ∧
    eqtime_sec 65535 (-65535) 12345 0 = eqtime_sec_formula 65535 (-65535) 12345 0 :=
  ⟨⟨by decide, by decide, by decide, by decide⟩,
    claim7_eqtime_formula 65535 (-65535) 12345 0
      (by decide) (by decide) (by decide) (by decide)⟩

/-- C8: the two local-time helpers fail exactly when the location is null,
its validity flag is clear, or the platform calendar primitive returns null;
the solver itself has no failure path and always marks its result valid. -/
theorem claim8_failure_modes (gmtime : Int → Option Tm) (now_utc : Int)
    (loc : Option GeoLoc) :
    (ymd_for_loc_now gmtime now_utc loc = none ↔
      loc = none ∨ ∃ l, loc = some l ∧
        (l.valid = false ∨ gmtime (now_utc + l.tz_offset_min * 60) = none)) ∧
    (get_location_local_tm gmtime now_utc loc = none ↔
      loc = none ∨ ∃ l, loc = some l ∧
        (l.valid = false ∨ gmtime (now_utc + l.tz_offset_min * 60) = none)) ∧
    (∀ (T : TrigTable) (year month_1_12 day_1_31 lat_e6 lon_e6 tz_offset_min : Int),
      (calc_sunrise_sunset_local T year month_1_12 day_1_31 lat_e6 lon_e6
        tz_offset_min).valid = true) := by
  refine ⟨?_, ?_, ?_⟩
  · cases loc with
    | none => simp [ymd_for_loc_now]
    | some l =>
      cases hv : l.valid with
      | false => simp [ymd_for_loc_now, hv]
      | true =>
        cases hg : gmtime (now_utc + l.tz_offset_min * 60) with
        | none => simp [ymd_for_loc_now, hv, hg]
        | some t => simp [ymd_for_loc_now, hv, hg]
  · cases loc with
    | none => simp [get_location_local_tm]
    | some l =>
      cases hv : l.valid with
      | false => simp [get_location_local_tm, hv]
      | true =>
        cases hg : gmtime (now_utc + l.tz_offset_min * 60) with
        | none => simp [get_location_local_tm, hv, hg]
        | some t => simp [get_location_local_tm, hv, hg]
  · intro T year month_1_12 day_1_31 lat_e6 lon_e6 tz_offset_min
    simp only [calc_sunrise_sunset_local, finishScan]
    split_ifs <;> rfl

/-- C10: a sample whose scaled sin(altitude) equals the threshold exactly is
classified as not above (the comparison is strict): it does not raise the
above count, cannot produce a sunrise at that step, behaves as the below
side of a crossing when the previous sample was above, and inside the
bisection a threshold-equal midpoint always joins the below side. -/
theorem claim10_threshold_strict (sh : Int) (eval : Int → Int) (st : ScanState)
    (m : Int) (hm : eval (if m = 1440 then 1439 else m) = sh) :
    classify sh sh = false ∧
    (scanStep (fun t => classify sh (eval t)) st m).prevAbove = false ∧
    (scanStep (fun t => classify sh (eval t)) st m).aboveCount = st.aboveCount ∧
    (scanStep (fun t => classify sh (eval t)) st m).rise = st.rise ∧
    (st.prevAbove = false → scanStep (fun t => classify sh (eval t)) st m = st) ∧
    (st.prevAbove = true →
      (scanStep (fun t => classify sh (eval t)) st m).set =
        (if st.set < 0
         then (bisect (fun t => classify sh (eval t)) true 10 (m - 10, m)).2
         else st.set)) ∧
    (∀ (pa : Bool) (lo hi : Int) (n : Nat), eval ((lo + hi).tdiv 2) = sh →
      bisect (fun t => classify sh (eval t)) pa (n + 1) (lo, hi) =
        (if pa = true
         then bisect (fun t => classify sh (eval t)) pa n (lo, (lo + hi).tdiv 2)
         else bisect (fun t => classify sh (eval t)) pa n ((lo + hi).tdiv 2, hi))) := by
  have hcl : classify sh sh = false := by simp [classify]
  have hf : classify sh (eval (if m = 1440 then 1439 else m)) = false := by
    rw [hm]
    exact hcl
  have hbis : ∀ (pa : Bool) (lo hi : Int) (n : Nat), eval ((lo + hi).tdiv 2) = sh →
      bisect (fun t => classify sh (eval t)) pa (n + 1) (lo, hi) =
        (if pa = true
         then bisect (fun t => classify sh (eval t)) pa n (lo, (lo + hi).tdiv 2)
         else bisect (fun t => classify sh (eval t)) pa n ((lo + hi).tdiv 2, hi)) := by
    intro pa lo hi n hmid
    cases pa with
    | false => simp [bisect, hmid, hcl]
    | true => simp [bisect, hmid, hcl]
  obtain ⟨r, s, ac, p⟩ := st
  cases p with
  | false =>
    rw [scanStep_no_trans _ _ _ (by exact hf)]
    refine ⟨hcl, by simp, by simp, by simp, fun _ => by simp, ?_, hbis⟩
    intro hcontra
    simp at hcontra
  | true =>
    rw [scanStep_down _ _ _ rfl (by exact hf)]
    refine ⟨hcl, by simp, by simp, by simp, ?_, fun _ => by simp, hbis⟩
    intro hcontra
    simp at hcontra

/-- C10 witness: the classification and step behaviour at a closed input. -/
theorem claim10_threshold_strict_witness :
    ((fun _ : Int => (0 : Int)) (if (10 : Int) = 1440 then 1439 else 10) = 0) ∧
    (classify 0 0 = false ∧
     (scanStep (fun t => classify 0 ((fun _ : Int => (0 : Int)) t))
        { rise := -1, set := -1, aboveCount := 0, prevAbove := true } 10).prevAbove = false ∧
     (scanStep (fun t => classify 0 ((fun _ : Int => (0 : Int)) t))
        { rise := -1, set := -1, aboveCount := 0, prevAbove := true } 10).aboveCount =
       ({ rise := -1, set := -1, aboveCount := 0, prevAbove := true } : ScanState).aboveCount ∧
     (scanStep (fun t => classify 0 ((fun _ : Int => (0 : Int)) t))
        { rise := -1, set := -1, aboveCount := 0, prevAbove := true } 10).rise =
       ({ rise := -1, set := -1, aboveCount := 0, prevAbove := true } : ScanState).rise ∧
     (({ rise := -1, set := -1, aboveCount := 0, prevAbove := true } : ScanState).prevAbove = false →
       scanStep (fun t => classify 0 ((fun _ : Int => (0 : Int)) t))
        { rise := -1, set := -1, aboveCount := 0, prevAbove := true } 10 =
       { rise := -1, set := -1, aboveCount := 0, prevAbove := true }) ∧
     (({ rise := -1, set := -1, aboveCount := 0, prevAbove := true } : ScanState).prevAbove = true →
       (scanStep (fun t => classify 0 ((fun _ : Int => (0 : Int)) t))
        { rise := -1, set := -1, aboveCount := 0, prevAbove := true } 10).set =
         (if ({ rise := -1, set := -1, aboveCount := 0, prevAbove := true } : ScanState).set < 0
          then (bisect (fun t => classify 0 ((fun _ : Int => (0 : Int)) t)) true 10 (10 - 10, 10)).2
          else ({ rise := -1, set := -1, aboveCount := 0, prevAbove := true } : ScanState).set)) ∧
     (∀ (pa : Bool) (lo hi : Int) (n : Nat),
        (fun _ : Int => (0 : Int)) ((lo + hi).tdiv 2) = 0 →
        bisect (fun t => classify 0 ((fun _ : Int => (0 : Int)) t)) pa (n + 1) (lo, hi) =
          (if pa = true
           then bisect (fun t => classify 0 ((fun _ : Int => (0 : Int)) t)) pa n (lo, (lo + hi).tdiv 2)
           else bisect (fun t => classify 0 ((fun _ : Int => (0 : Int)) t)) pa n ((lo + hi).tdiv 2, hi)))) :=
  ⟨rfl, claim10_threshold_strict 0 (fun _ => 0)
    { rise := -1, set := -1, aboveCount := 0, prevAbove := true } 10 rfl⟩

end YesAstro
